import Mathlib

/-!
Verification of `twisted/scripts/trial.py` (test-runner CLI orchestration).

Strings are embedded as `List Char`; Python `long`/`int` as `Int`;
`time.time()` as `ℚ`; fallible code as `Except`.  Each definition mirrors
one Python function of the source, keeping its name where Lean allows.
-/

/-- Decidable equality for `Except`, needed to evaluate the parser model on
concrete inputs. -/
instance {ε α : Type} [DecidableEq ε] [DecidableEq α] :
    DecidableEq (Except ε α) := fun x y =>
  match x, y with
  | .ok a, .ok b =>
      if h : a = b then isTrue (by rw [h])
      else isFalse (fun hc => h (by injection hc))
  | .error a, .error b =>
      if h : a = b then isTrue (by rw [h])
      else isFalse (fun hc => h (by injection hc))
  | .ok _, .error _ => isFalse (fun hc => Except.noConfusion hc)
  | .error _, .ok _ => isFalse (fun hc => Except.noConfusion hc)

namespace Trial

/-- Python whitespace characters recognised by `str.strip()`. -/
def pyIsSpace (c : Char) : Bool :=
  c == ' ' || c == '\t' || c == '\n' || c == '\r' || c == '\x0b' || c == '\x0c'

/-- Python `str.strip()`: drop leading and trailing whitespace. -/
def pyStrip (l : List Char) : List Char :=
  ((l.dropWhile pyIsSpace).reverse.dropWhile pyIsSpace).reverse

/-- Index of the first occurrence of `pat` in `l` (as an `Option`). -/
def findSubAux (pat : List Char) : List Char → Option Nat
  | [] => if pat.isEmpty then some 0 else none
  | c :: rest =>
      if pat.isPrefixOf (c :: rest) then some 0
      else (findSubAux pat rest).map (· + 1)

/-- Python `str.find`: first index of `pat` in `l`, `-1` when absent. -/
def findSub (pat l : List Char) : Int :=
  match findSubAux pat l with
  | some n => (n : Int)
  | none => -1

/-- Index of the last occurrence of `pat` in `l` (as an `Option`). -/
def rfindSubAux (pat l : List Char) : Option Nat :=
  (List.range (l.length + 1)).foldl
    (fun acc i => if pat.isPrefixOf (l.drop i) then some i else acc) none

/-- Python `str.rfind`: last index of `pat` in `l`, `-1` when absent. -/
def rfindSub (pat l : List Char) : Int :=
  match rfindSubAux pat l with
  | some n => (n : Int)
  | none => -1

/-- Python slice `l[a:b]` for the non-negative indices reached in this code. -/
def pySlice (l : List Char) (a b : Int) : List Char :=
  (l.drop a.toNat).take (b.toNat - a.toNat)

/-- The Emacs local-variable bracket token `-*-` (`paren` in the source). -/
def paren : List Char := "-*-".toList

/-- Python dicts, used here only through assignment and `.get`: assignment is
modelled by appending the binding and `.get` by the last matching binding. -/
abbrev Dict := List (List Char × List Char)

/-- Python dict assignment `d[k] = v`. -/
def dictInsert (d : Dict) (k v : List Char) : Dict :=
  d ++ [(k, v)]

/-- Python `d.get(k, None)`: value of the most recent assignment to `k`. -/
def dictGet (d : Dict) (k : List Char) : Option (List Char) :=
  (d.reverse.find? (fun p => p.1 == k)).map (·.2)

/-- The `for item in items` accumulation loop of `_parseLocalVariables`:
skips blank items, requires exactly one `:` per item, strips key and value;
a malformed item aborts the whole parse (the `raise ValueError`). -/
def parseLVItems : List (List Char) → Dict → Except Unit Dict
  | [], acc => Except.ok acc
  | item :: rest, acc =>
      if (pyStrip item).length == 0 then parseLVItems rest acc
      else
        match item.splitOn ':' with
        | [k, v] => parseLVItems rest (dictInsert acc (pyStrip k) (pyStrip v))
        | _ => Except.error ()

/-- Mirror of `_parseLocalVariables(line)`: locate the text between the first
and the last occurrence of `-*-` (`start = line.find(paren) + len(paren)`,
`end = line.rfind(paren)`), fail when the token is absent, split the middle
on `;` and parse the `key: value` items. -/
def parseLocalVariables (line : List Char) : Except Unit Dict :=
  let start : Int := findSub paren line + 3
  let stop : Int := rfindSub paren line
  if start == -1 || stop == -1 then Except.error ()
  else parseLVItems ((pySlice line start stop).splitOn ';') []

/-- Mirror of `loadLocalVariables(filename)` on the file's first two lines:
return the first line's parse when it succeeds, otherwise try the second
line, otherwise the empty dict; `ValueError` is swallowed. -/
def loadLocalVariables (l1 l2 : List Char) : Dict :=
  match parseLocalVariables l1 with
  | Except.ok d => d
  | Except.error _ =>
      match parseLocalVariables l2 with
      | Except.ok d => d
      | Except.error _ => []

/-- Python 2 `os.path.basename`: the part after the last `/`. -/
def pyBasename (p : List Char) : List Char :=
  p.drop (rfindSub ['/'] p + 1).toNat

/-- Extension part of Python 2 `os.path.splitext`: from the last `.` to the
end, empty when the last `.` does not come after the last `/`. -/
def splitextExt (p : List Char) : List Char :=
  let dotI := rfindSub ['.'] p
  let sepI := rfindSub ['/'] p
  if dotI ≤ sepI then [] else p.drop dotI.toNat

/-- Mirror of `isTestFile(filename)`: basename starts with `test_` and the
extension is `.py`. -/
def isTestFile (filename : List Char) : Bool :=
  let b := pyBasename filename
  "test_".toList.isPrefixOf b && splitextExt b == ".py".toList

/-- The `test-case-name` key looked up by `opt_testmodule`. -/
def testCaseNameKey : List Char := "test-case-name".toList

/-- Mirror of `Options.opt_testmodule(filename)` acting on the `tests` list.
`isFile` stands for `os.path.isfile(filename)`; `l1`, `l2` are the file's
first two lines; `os.path.abspath` is modelled as the identity (the paths of
this model are taken as already absolute).  A missing file only writes to
stderr; a test-file name is appended directly; otherwise the
`test-case-name` local variable is appended unless already present. -/
def opt_testmodule (tests : List (List Char)) (filename : List Char)
    (isFile : Bool) (l1 l2 : List Char) : List (List Char) :=
  if !isFile then tests
  else if isTestFile filename then tests ++ [filename]
  else
    match dictGet (loadLocalVariables l1 l2) testCaseNameKey with
    | none => tests
    | some m => if tests.contains m then tests else tests ++ [m]

/-- Mirror of `Options.parseArgs(*args)` acting on the `tests` list:
every positional argument is appended (after `abspath`, modelled as the
identity), then any `--extra` arguments; no duplicate check. -/
def parseArgs (tests : List (List Char)) (args : List (List Char))
    (extra : Option (List (List Char))) : List (List Char) :=
  tests ++ args ++ (match extra with | none => [] | some e => e)

/-- Outcome of one test pass, as consumed by `callUntilFailure`: only its
`wasSuccessful()` answer matters to the driver. -/
structure RunResult where
  wasSuccessful : Bool
deriving DecidableEq

/-- Loop body of `callUntilFailure`: `f i` is the result of the `i`-th call
(0-based) of the zero-argument `passFn`, `i` the number of calls already
made.  The source loop has no internal cap; `fuel` bounds the recursion and
is irrelevant whenever a failing call is reached within it.  Returns the
final `count` (number of invocations) together with the last result. -/
def callUntilFailureGo (f : Nat → RunResult) : Nat → Nat → Nat × RunResult
  | i, fuel + 1 =>
      let result := f i
      if result.wasSuccessful then callUntilFailureGo f (i + 1) fuel
      else (i + 1, result)
  | i, 0 => (i + 1, f i)

/-- Mirror of `callUntilFailure(f)`: call `f` repeatedly until a result is
not successful, returning how many calls were made and the last result. -/
def callUntilFailure (f : Nat → RunResult) (fuel : Nat) : Nat × RunResult :=
  callUntilFailureGo f 0 fuel

/-- Python `long()` applied to a float, truncation toward zero (on `ℚ`). -/
def pyLong (q : ℚ) : ℤ :=
  if 0 ≤ q then q.floor else -((-q).floor)

/-- Mirror of `Options.opt_random(option)` on an already-parsed integer
argument, with the current `time.time()` value passed explicitly: negative
seeds are a usage error, a zero seed is replaced by `long(time.time()*100)`,
a positive seed is stored as given. -/
def opt_random (option : ℤ) (timeNow : ℚ) : Except Unit ℤ :=
  if option < 0 then Except.error ()
  else if option = 0 then Except.ok (pyLong (timeNow * 100))
  else Except.ok option

/-- Python truthiness of the `config['random']` value (`None` or a long). -/
def pyTruthy : Option ℤ → Bool
  | none => false
  | some n => n != 0

/-- Stable insertion by key into an already sorted list (an element with an
equal key goes after the existing ones). -/
def insertByKey (p : ℤ × Nat) : List (ℤ × Nat) → List (ℤ × Nat)
  | [] => [p]
  | q :: rest => if p.1 < q.1 then p :: q :: rest else q :: insertByKey p rest

/-- Stable insertion sort of key-tagged elements. -/
def isortByKey : List (ℤ × Nat) → List (ℤ × Nat)
  | [] => []
  | p :: rest => insertByKey p (isortByKey rest)

/-- Modelled from the spec: `SafeTestLoader` (twisted.trial.runner, not in
src) applies `loader.sorter` by calling it once per unit in input order and
stably sorting the units by the returned keys; the lambda installed by
`_getLoader` ignores its argument and returns the successive draws of the
seeded generator, so the unit at input position `i` receives the draw of
rank `i`.  `draw` is that per-position key stream. -/
def sortByDraws (draw : Nat → ℤ) (units : List Nat) : List Nat :=
  (isortByKey ((units.enum).map (fun p => (draw p.1, p.2)))).map (·.2)

/-- Mirror of the ordering installed by `_getLoader(config, reporter)`:
`g s` is the deterministic draw stream of `random.Random()` seeded with `s`
(the stdlib generator, external to src, is opaque but deterministic given
its seed).  When `config['random']` is falsy the sorter is left untouched
and, modelled from the spec, the default order is the resolution order. -/
def loaderOrdering (g : ℤ → Nat → ℤ) (randomCfg : Option ℤ)
    (units : List Nat) : List Nat :=
  if pyTruthy randomCfg then
    sortByDraws (g (match randomCfg with | some s => s | none => 0)) units
  else units

/-- Reporter lines written by `_getLoader`: the shuffle-seed echo is written
exactly when `config['random']` is truthy. -/
def getLoaderMessages (randomCfg : Option ℤ) : List String :=
  if pyTruthy randomCfg then
    ["Running tests shuffled with seed "
      ++ toString (match randomCfg with | some s => s | none => 0) ++ "\n"]
  else []

/-- Observable events of one pass: a reporter `reportImportError` call, or
the execution of one test unit by the runner. -/
inductive Event
  | reportImportError (e : Nat)
  | runUnit (u : Nat)
deriving DecidableEq

/-- True at reporter import-error events. -/
def Event.isImportErrorEvent : Event → Bool
  | .reportImportError _ => true
  | .runUnit _ => false

/-- Mirror of `_getSuite(config, reporter)`: each test specifier is handed to
the loader (`resolve`, modelled from the spec: `SafeTestLoader.loadByName`
returns loadable units and accumulates import errors without raising); the
suite collects all resolved units, and afterwards every accumulated import
error is reported via `reporter.reportImportError`.  Returns the suite's
units together with the reporter events emitted during suite construction. -/
def getSuite (resolve : Nat → List Nat × List Nat) (tests : List Nat) :
    List Nat × List Event :=
  let loaded := tests.map resolve
  let units := (loaded.map Prod.fst).flatten
  let errors := (loaded.map Prod.snd).flatten
  (units, errors.map Event.reportImportError)

/-- Import errors accumulated by the loader over all specifiers. -/
def suiteErrors (resolve : Nat → List Nat × List Nat) (tests : List Nat) :
    List Nat :=
  ((tests.map resolve).map Prod.snd).flatten

/-- Event trace of `do_a_run` inside `reallyRun`: first the events of
`_getSuite` (the import-error reports), then the runner executes the suite's
units in order. -/
def doARunTrace (resolve : Nat → List Nat × List Nat) (tests : List Nat) :
    List Event :=
  let s := getSuite resolve tests
  s.2 ++ s.1.map Event.runUnit

/-- Outcome of calling a Python function: a returned value, a `SystemExit`,
or another exception named by a string. -/
inductive PyOutcome (α : Type)
  | val (a : α)
  | sysExit (code : ℤ)
  | exc (name : String)
deriving DecidableEq

/-- Side-channel statistics actions of `_doProfilingRun`. -/
inductive StatsEvent
  | dumpStats
  | printStats
  | hotshotStats
deriving DecidableEq

/-- Mirror of `_doProfilingRun(func)` given the outcome of
`prof.runcall(func, ...)`.  On an interpreter other than Python 2.4 the
`profile` branch runs: a returned value is dumped and printed and returned;
a `SystemExit` is caught by `except SystemExit: pass`, `prof.print_stats()`
still runs, and then `return result` reads the never-assigned local
`result`, raising `UnboundLocalError`; any other exception propagates with
no statistics flushed.  On Python 2.4 the `hotshot` branch runs: the
`finally` block flushes statistics and the outcome (value or exception)
propagates unchanged. -/
def doProfilingRun (isPy24 : Bool) (outcome : PyOutcome ℤ) :
    PyOutcome ℤ × List StatsEvent :=
  if isPy24 then
    (outcome, [StatsEvent.hotshotStats])
  else
    match outcome with
    | .val a => (.val a, [StatsEvent.dumpStats, StatsEvent.printStats])
    | .sysExit _ => (.exc "UnboundLocalError", [StatsEvent.printStats])
    | .exc e => (.exc e, [])

/-- Helper for C1: the loop of `callUntilFailure`, started after `i` calls,
reaches the first failing call and stops there. -/
theorem callUntilFailureGo_spec (f : Nat → RunResult) (k : Nat)
    (hsucc : ∀ i, i + 1 < k → (f i).wasSuccessful = true)
    (hfail : (f (k - 1)).wasSuccessful = false) :
    ∀ fuel i, i < k → k - i ≤ fuel →
      callUntilFailureGo f i fuel = (k, f (k - 1)) := by
  intro fuel
  induction fuel with
  | zero => intro i hik hle; omega
  | succ fuel ih =>
      intro i hik hle
      by_cases hlast : i + 1 < k
      · have hs : (f i).wasSuccessful = true := hsucc i hlast
        simp only [callUntilFailureGo, hs, if_true]
        exact ih (i + 1) hlast (by omega)
      · have hi : i = k - 1 := by omega
        subst hi
        simp only [callUntilFailureGo, hfail, Bool.false_eq_true, if_false]
        have : k - 1 + 1 = k := by omega
        rw [this]

/-- C1: when the zero-argument `passFn` yields successful results for its
first `k - 1` calls and a non-successful result at call `k`,
`callUntilFailure` invokes it exactly `k` times and returns the `k`-th
(first failing) result; any sufficient fuel bound gives the same answer,
mirroring the uncapped source loop. -/
theorem callUntilFailure_stops_at_first_failure (f : Nat → RunResult)
    (k fuel : Nat) (hk : 0 < k)
    (hsucc : ∀ i, i + 1 < k → (f i).wasSuccessful = true)
    (hfail : (f (k - 1)).wasSuccessful = false)
    (hfuel : k ≤ fuel) :
    callUntilFailure f fuel = (k, f (k - 1)) :=
  callUntilFailureGo_spec f k hsucc hfail fuel 0 hk (by omega)

/-- Witness for C1: a `passFn` producing success, success, failure is invoked
exactly 3 times and the 3rd (failing) result is returned. -/
theorem callUntilFailure_stops_at_first_failure_witness :
    callUntilFailure (fun i => RunResult.mk (decide (i < 2))) 3 =
      (3, RunResult.mk false) :=
  callUntilFailure_stops_at_first_failure (fun i => RunResult.mk (decide (i < 2)))
    3 3 (by decide)
    (fun i hi => decide_eq_true (by omega))
    (by decide) (by decide)

/-- C3: the ordering installed by `_getLoader` for a fixed positive seed is a
pure function of the seeded generator, the seed and the input sequence: two
invocations with the same seed and the same input yield the same
permutation. -/
theorem loaderOrdering_deterministic (g : ℤ → Nat → ℤ) (s₁ s₂ : ℤ)
    (u₁ u₂ : List Nat) (hs : s₁ = s₂) (hu : u₁ = u₂) (hpos : 0 < s₁) :
    loaderOrdering g (some s₁) u₁ = loaderOrdering g (some s₂) u₂ := by
  subst hs
  subst hu
  rfl

/-- Witness for C3: determinism instantiated at seed 1 and a concrete
three-unit sequence. -/
theorem loaderOrdering_deterministic_witness :
    loaderOrdering (fun s i => (s + i) % 3) (some 1) [0, 1, 2] =
      loaderOrdering (fun s i => (s + i) % 3) (some 1) [0, 1, 2] :=
  loaderOrdering_deterministic (fun s i => (s + i) % 3) 1 1 [0, 1, 2] [0, 1, 2]
    rfl rfl (by decide)

/-- C4: when no random seed is configured (`config['random']` is `None`),
`_getLoader` leaves the loader's sorter untouched and the units keep their
resolved input order: ordering with no seed is the identity. -/
theorem loaderOrdering_no_seed_identity (g : ℤ → Nat → ℤ) (units : List Nat)
    (hne : units ≠ []) :
    loaderOrdering g none units = units := rfl

/-- Witness for C4: the identity law on a concrete non-empty sequence. -/
theorem loaderOrdering_no_seed_identity_witness :
    loaderOrdering (fun s i => (s + i) % 5) none [7, 3] = [7, 3] :=
  loaderOrdering_no_seed_identity (fun s i => (s + i) % 5) [7, 3] (by decide)

/-- C9: on an interpreter other than Python 2.4 the `profile` branch of
`_doProfilingRun` catches a `SystemExit` from the wrapped callable with
`pass` and then executes `return result` with the local `result` never
assigned, so the caller sees an `UnboundLocalError` instead of the
propagated `SystemExit` (the statistics are still printed); the Python 2.4
`hotshot` branch flushes statistics in its `finally` block and propagates
the `SystemExit` unchanged, and on a plain return both branches hand back
the callable's own value. -/
theorem doProfilingRun_sysExit_behavior :
    doProfilingRun false (PyOutcome.sysExit 0) =
      (PyOutcome.exc "UnboundLocalError", [StatsEvent.printStats]) ∧
    (doProfilingRun false (PyOutcome.sysExit 0)).1 ≠ PyOutcome.sysExit 0 ∧
    doProfilingRun true (PyOutcome.sysExit 0) =
      (PyOutcome.sysExit 0, [StatsEvent.hotshotStats]) ∧
    doProfilingRun false (PyOutcome.val 7) =
      (PyOutcome.val 7, [StatsEvent.dumpStats, StatsEvent.printStats]) ∧
    doProfilingRun true (PyOutcome.val 7) =
      (PyOutcome.val 7, [StatsEvent.hotshotStats]) := by
  decide

/-- C2 (counterexample): at current time `0` (a non-negative time) the seed
derived by `opt_random` for option `0` is `long(0 * 100) = 0`, which is not
strictly positive; a stored seed of `0` is falsy, so `_getLoader` neither
shuffles nor echoes the seed message. -/
theorem opt_random_zero_time_counterexample :
    opt_random 0 0 = Except.ok 0 ∧ ¬((0 : ℤ) < 0) ∧
    getLoaderMessages (some 0) = [] ∧
    loaderOrdering (fun _ _ => 0) (some 0) [0, 1] = [0, 1] := by
  refine ⟨?_, by decide, by decide, by decide⟩
  norm_num [opt_random, pyLong, Rat.floor_def']

/-- C2 (amended): for option `0`, `opt_random` stores `long(time * 100)`,
which is non-negative for any non-negative current time and strictly
positive whenever the time is at least `1/100` second (so for every
realistic clock value); with such a positive derived seed the run shuffles
with it and echoes the `Running tests shuffled with seed` message. -/
theorem opt_random_zero_derives_time_seed (t : ℚ) (ht0 : 0 ≤ t) :
    opt_random 0 t = Except.ok (pyLong (t * 100)) ∧
    0 ≤ pyLong (t * 100) ∧
    ((1 : ℚ)/100 ≤ t →
      0 < pyLong (t * 100) ∧
      (∀ g units, loaderOrdering g (some (pyLong (t * 100))) units =
        sortByDraws (g (pyLong (t * 100))) units) ∧
      getLoaderMessages (some (pyLong (t * 100))) =
        ["Running tests shuffled with seed "
          ++ toString (pyLong (t * 100)) ++ "\n"]) := by
  have h100 : (0 : ℚ) ≤ t * 100 := by positivity
  have hlong : pyLong (t * 100) = (t * 100).floor := by
    simp [pyLong, h100]
  refine ⟨by simp [opt_random], ?_, ?_⟩
  · rw [hlong]
    exact Rat.le_floor.mpr (by push_cast; linarith)
  · intro ht
    have hpos : 0 < pyLong (t * 100) := by
      rw [hlong]
      have : (1 : ℤ) ≤ (t * 100).floor := Rat.le_floor.mpr (by push_cast; linarith)
      omega
    have hne : pyLong (t * 100) ≠ 0 := by omega
    refine ⟨hpos, ?_, ?_⟩
    · intro g units
      simp [loaderOrdering, pyTruthy, hne]
    · simp [getLoaderMessages, pyTruthy, hne]

/-- Witness for C2 (amended): at current time `1` the derived seed is
positive, stored, and echoed. -/
theorem opt_random_zero_derives_time_seed_witness :
    opt_random 0 1 = Except.ok (pyLong ((1 : ℚ) * 100)) ∧
    0 < pyLong ((1 : ℚ) * 100) ∧
    getLoaderMessages (some (pyLong ((1 : ℚ) * 100))) =
      ["Running tests shuffled with seed "
        ++ toString (pyLong ((1 : ℚ) * 100)) ++ "\n"] := by
  have h := opt_random_zero_derives_time_seed 1 (by norm_num)
  have h2 := h.2.2 (by norm_num)
  exact ⟨h.1, h2.1, h2.2.2⟩

/-- Helper for C5: in a trace made of all import-error reports followed by
all unit executions, every report index is below every execution index, and
the reports are exactly the errors. -/
theorem reportsBeforeRuns (errs units : List Nat) :
    (∀ (i j u e : Nat),
      (errs.map Event.reportImportError ++ units.map Event.runUnit)[i]? =
        some (Event.runUnit u) →
      (errs.map Event.reportImportError ++ units.map Event.runUnit)[j]? =
        some (Event.reportImportError e) → j < i) ∧
    (errs.map Event.reportImportError ++ units.map Event.runUnit).filter
        Event.isImportErrorEvent = errs.map Event.reportImportError := by
  constructor
  · intro i j u e hi hj
    have hjE : j < (errs.map Event.reportImportError).length := by
      by_contra hge
      push_neg at hge
      rw [List.getElem?_append_right hge, List.getElem?_map] at hj
      rcases Option.map_eq_some'.mp hj with ⟨a, _, hb⟩
      exact Event.noConfusion hb
    have hiE : (errs.map Event.reportImportError).length ≤ i := by
      by_contra hlt
      push_neg at hlt
      rw [List.getElem?_append, if_pos hlt, List.getElem?_map] at hi
      rcases Option.map_eq_some'.mp hi with ⟨a, _, hb⟩
      exact Event.noConfusion hb
    omega
  · rw [List.filter_append]
    have h1 : List.filter (Event.isImportErrorEvent ∘ Event.reportImportError)
        errs = errs :=
      List.filter_eq_self.mpr (fun a _ => rfl)
    have h2 : List.filter (Event.isImportErrorEvent ∘ Event.runUnit)
        units = [] :=
      List.filter_eq_nil_iff.mpr (fun a _ => by
        simp [Function.comp, Event.isImportErrorEvent])
    rw [List.filter_map, List.filter_map, h1, h2, List.map_nil,
      List.append_nil]

/-- C5: in every pass, all import errors collected by the loader during
suite construction are reported to the reporter via `reportImportError`
strictly before the runner executes any test unit, and the reported errors
are exactly the loader's accumulated errors (none is raised or lost). -/
theorem importErrors_reported_before_any_run
    (resolve : Nat → List Nat × List Nat) (tests : List Nat) :
    (∀ (i j u e : Nat), (doARunTrace resolve tests)[i]? = some (Event.runUnit u) →
        (doARunTrace resolve tests)[j]? = some (Event.reportImportError e) →
        j < i) ∧
    (doARunTrace resolve tests).filter Event.isImportErrorEvent =
      (suiteErrors resolve tests).map Event.reportImportError := by
  have hsplit : doARunTrace resolve tests =
      (suiteErrors resolve tests).map Event.reportImportError ++
        ((getSuite resolve tests).1.map Event.runUnit) := rfl
  rw [hsplit]
  exact reportsBeforeRuns (suiteErrors resolve tests) (getSuite resolve tests).1

/-- Witness for C5: one specifier resolving to unit 5 with import error 15;
the report at index 0 precedes the execution at index 1, and the filtered
trace is exactly that one report. -/
theorem importErrors_reported_before_any_run_witness :
    (0 : Nat) < 1 ∧
    (doARunTrace (fun t => ([t], [t + 10])) [5]).filter
        Event.isImportErrorEvent =
      (suiteErrors (fun t => ([t], [t + 10])) [5]).map
        Event.reportImportError :=
  ⟨(importErrors_reported_before_any_run (fun t => ([t], [t + 10])) [5]).1
      1 0 5 15 (by decide) (by decide),
    (importErrors_reported_before_any_run (fun t => ([t], [t + 10])) [5]).2⟩

/-- C6 (counterexample): the file `/d/foo.py` does not match the test-file
convention and its second line `-*- test-case-name: a.b -*-` is a
well-formed declaration carrying `test-case-name`, yet when the first line
`-*- x: y -*-` parses successfully (to a mapping without the key) the
second line is never consulted and nothing is appended. -/
theorem opt_testmodule_second_line_masked :
    isTestFile "/d/foo.py".toList = false ∧
    dictGet (loadLocalVariables "-*- test-case-name: a.b -*-".toList
        "".toList) testCaseNameKey = some "a.b".toList ∧
    opt_testmodule [] "/d/foo.py".toList true "-*- x: y -*-".toList
      "-*- test-case-name: a.b -*-".toList = [] := by
  decide

/-- C6 (amended): for an existing file whose name does not match the
test-file convention, when the declaration search of `loadLocalVariables`
(the first line's mapping when it parses, otherwise the second line's)
yields `test-case-name ↦ m`, the testmodule option appends `m` unless it is
already present; a file matching the convention is appended directly. -/
theorem opt_testmodule_marker_module_appended (tests : List (List Char))
    (filename l1 l2 m : List Char) :
    (isTestFile filename = false →
      dictGet (loadLocalVariables l1 l2) testCaseNameKey = some m →
      opt_testmodule tests filename true l1 l2 =
        (if tests.contains m then tests else tests ++ [m])) ∧
    (isTestFile filename = true →
      opt_testmodule tests filename true l1 l2 = tests ++ [filename]) := by
  constructor
  · intro hnot hm
    simp [opt_testmodule, hnot, hm]
  · intro ht
    simp [opt_testmodule, ht]

/-- Witness for C6 (amended): a fresh marker module is appended. -/
theorem opt_testmodule_marker_module_appended_witness :
    opt_testmodule [] "/d/foo.py".toList true "# first line".toList
        "-*- test-case-name: a.b -*-".toList =
      (if ([] : List (List Char)).contains "a.b".toList then []
        else [] ++ ["a.b".toList]) :=
  (opt_testmodule_marker_module_appended [] "/d/foo.py".toList
      "# first line".toList "-*- test-case-name: a.b -*-".toList
      "a.b".toList).1 (by decide) (by decide)

/-- C7: for an existing file whose name does not match the test-file
convention and whose first two lines carry no successfully parsed
declaration with the `test-case-name` key, the testmodule option adds no
specifier and signals no error: the list is returned unchanged (malformed
declarations were swallowed inside `loadLocalVariables`). -/
theorem opt_testmodule_no_marker_unchanged (tests : List (List Char))
    (filename l1 l2 : List Char)
    (hnot : isTestFile filename = false)
    (h1 : ∀ d, parseLocalVariables l1 = Except.ok d →
      dictGet d testCaseNameKey = none)
    (h2 : ∀ d, parseLocalVariables l2 = Except.ok d →
      dictGet d testCaseNameKey = none) :
    opt_testmodule tests filename true l1 l2 = tests := by
  have hload : dictGet (loadLocalVariables l1 l2) testCaseNameKey = none := by
    unfold loadLocalVariables
    cases hp1 : parseLocalVariables l1 with
    | ok d => exact h1 d hp1
    | error e =>
        cases hp2 : parseLocalVariables l2 with
        | ok d => exact h2 d hp2
        | error e2 => rfl
  simp [opt_testmodule, hnot, hload]

/-- Witness for C7: two comment lines with no marker leave the list as it
was. -/
theorem opt_testmodule_no_marker_unchanged_witness :
    opt_testmodule ["keep".toList] "/d/foo.py".toList true "# a".toList
      "# b".toList = ["keep".toList] :=
  opt_testmodule_no_marker_unchanged ["keep".toList] "/d/foo.py".toList
    "# a".toList "# b".toList (by decide)
    (fun d h => by
      rw [show parseLocalVariables "# a".toList = Except.error () from
        by decide] at h
      exact Except.noConfusion h)
    (fun d h => by
      rw [show parseLocalVariables "# b".toList = Except.error () from
        by decide] at h
      exact Except.noConfusion h)

/-- C8 (counterexample): two identical positional arguments are both
appended by `parseArgs`, so the accumulated test list does contain
duplicate identifiers. -/
theorem parseArgs_duplicate_counterexample :
    parseArgs [] ["a".toList, "a".toList] none =
      ["a".toList, "a".toList] ∧
    ¬ (parseArgs [] ["a".toList, "a".toList] none).Nodup := by
  constructor
  · rfl
  · decide

/-- C8 (amended): only the marker-derived module specifiers of the
testmodule option are deduplicated — adding a module name already present
leaves the list unchanged — while positional arguments (`parseArgs`) and
test-file paths are appended unconditionally and may create duplicates. -/
theorem opt_testmodule_dedupes_marker_module (tests : List (List Char))
    (filename l1 l2 m : List Char)
    (hnot : isTestFile filename = false)
    (hm : dictGet (loadLocalVariables l1 l2) testCaseNameKey = some m)
    (hmem : tests.contains m = true) :
    opt_testmodule tests filename true l1 l2 = tests := by
  have hmem' : m ∈ tests := by simpa using hmem
  simp [opt_testmodule, hnot, hm, hmem']

/-- Witness for C8 (amended): re-adding an already present marker module is
a no-op. -/
theorem opt_testmodule_dedupes_marker_module_witness :
    opt_testmodule ["a.b".toList] "/d/foo.py".toList true "# x".toList
      "-*- test-case-name: a.b -*-".toList = ["a.b".toList] :=
  opt_testmodule_dedupes_marker_module ["a.b".toList] "/d/foo.py".toList
    "# x".toList "-*- test-case-name: a.b -*-".toList "a.b".toList
    (by decide) (by decide) (by decide)

/-- C10: `loadLocalVariables` consults the second line only when the first
line's parse raises: whenever the first line parses successfully its
mapping is returned and the second line is ignored; a line in which `-*-`
occurs exactly once (the same index is both first and last occurrence)
parses successfully to the empty mapping rather than raising; and only when
the first line raises is the second line's successful mapping returned. -/
theorem loadLocalVariables_first_line_precedence (l1 l2 : List Char) :
    (∀ d, parseLocalVariables l1 = Except.ok d →
      loadLocalVariables l1 l2 = d) ∧
    (∀ p : Nat, findSubAux paren l1 = some p → rfindSubAux paren l1 = some p →
      parseLocalVariables l1 = Except.ok []) ∧
    (∀ e d, parseLocalVariables l1 = Except.error e →
      parseLocalVariables l2 = Except.ok d → loadLocalVariables l1 l2 = d) := by
  refine ⟨?_, ?_, ?_⟩
  · intro d h
    unfold loadLocalVariables
    rw [h]
  · intro p hfind hrfind
    simp only [parseLocalVariables, findSub, rfindSub, hfind, hrfind]
    have h1 : (((p : Int) + 3) == -1) = false := by
      simp only [beq_eq_false_iff_ne, ne_eq]
      omega
    have h2 : ((p : Int) == -1) = false := by
      simp only [beq_eq_false_iff_ne, ne_eq]
      omega
    rw [h1, h2]
    have hslice : pySlice l1 ((p : Int) + 3) (p : Int) = [] := by
      unfold pySlice
      have hz : (p : Int).toNat - ((p : Int) + 3).toNat = 0 := by omega
      rw [hz, List.take_zero]
    rw [Bool.or_self, if_neg (by simp), hslice]
    rfl
  · intro e d he hd
    unfold loadLocalVariables
    rw [he, hd]

/-- Witness for C10: `-*-` alone parses to the empty mapping and masks a
valid `test-case-name` declaration on the second line. -/
theorem loadLocalVariables_first_line_precedence_witness :
    parseLocalVariables "-*-".toList = Except.ok [] ∧
    loadLocalVariables "-*-".toList "-*- test-case-name: m -*-".toList
      = [] := by
  have h := loadLocalVariables_first_line_precedence "-*-".toList
    "-*- test-case-name: m -*-".toList
  exact ⟨h.2.1 0 (by decide) (by decide),
    h.1 [] (h.2.1 0 (by decide) (by decide))⟩

end Trial
